import Mathlib

/-!
Shallow embedding of the actuator-control firmware
(`src/firmware/microcontroller/src`): the servo / stepper / io-pin state
records, the WebSocket command handlers of `message_handler.cpp` and
`hardware/servo.cpp`, and the periodic updaters of `hardware/stepper.cpp`
and `hardware/io_pin.cpp`.

Hardware collaborators are modelled as oracles: the FastAccelStepper
engine is an `EngineView` (current position, running flag) plus a log of
issued `EngineCmd`s; `digitalRead`/`analogRead` are functions from pin
number to level; the success of `Servo::attach` and
`engine.stepperConnectToPin` is a `Bool` parameter.  Outbound WebSocket
traffic is a `List Event`; `millis()` is a `Nat` parameter.  C++ `float`
speeds are modelled as `ℚ`, `long` positions as `Int` (the concrete
scenarios proved below stay far below any overflow boundary), `String`
fields as `String`.
-/

namespace Nextron

/-- Immediate reply to the requesting client (`client->text(...)`): the
code sends free-form text beginning with `OK:`/`ERROR:`; we keep the
status and the fixed part of the message. -/
inductive Response
  | ok (msg : String)
  | err (msg : String)
deriving DecidableEq, Repr

/-- Broadcast WebSocket traffic (`ws.textAll`): action-completion
notifications, stepper position updates, and pin value-change reports.
`position` is `some` for completions built by `sendStepperActionComplete`
(which serializes the stepper's `currentPosition`) and `none` for the
inline completion of the zero-step branch of `handleStepperMessage`,
which has no position field. -/
inductive Event
  | actionComplete (group componentId commandId : String) (success : Bool)
      (error : Option String) (position : Option Int)
  | stepperPosition (id : String) (pos : Int)
  | pinValue (id : String) (value : Int) (ptype mode : String)
deriving DecidableEq, Repr

/-- Commands issued to a FastAccelStepper instance (external collaborator). -/
inductive EngineCmd
  | moveTo (p : Int)
  | moveRel (d : Int)
  | forceStop
  | forceStopAndNewPosition (p : Int)
  | setSpeed (v : ℚ)
  | setAcceleration (v : ℚ)
  | setCurrentPosition (p : Int)
deriving DecidableEq, Repr

/-- Readable engine state at one instant: `getCurrentPosition()` and
`isRunning()`. -/
structure EngineView where
  pos : Int
  running : Bool
deriving DecidableEq, Repr

/-- `stepperPositionReportInterval` (config.cpp): report position every
100 ms if changed. -/
def stepperPositionReportInterval : Nat := 100

/-- `analogInputReadInterval` (config.cpp): poll analog inputs every
100 ms. -/
def analogInputReadInterval : Nat := 100

/-- `StepperConfig` (config.h).  `connected` models
`stepper != nullptr`; the engine handle itself lives outside the state. -/
structure StepperS where
  id : String
  name : String := ""
  pulPin : Nat := 0
  dirPin : Nat := 0
  enaPin : Nat := 0
  connected : Bool := false
  maxSpeed : ℚ := 50000
  acceleration : ℚ := 50000
  minPosition : Int := -50000
  maxPosition : Int := 50000
  currentPosition : Int := 0
  targetPosition : Int := 0
  stepsPerInch : ℚ := 200
  isHomed : Bool := false
  lastPositionReportTime : Nat := 0
  homeSensorId : String := ""
  homingDirection : Int := 0
  homingSpeed : ℚ := 0
  isHoming : Bool := false
  homeSensorPinActiveState : Int := 0
  homePositionOffset : Int := 0
  isActionPending : Bool := false
  pendingCommandId : String := ""
deriving DecidableEq, Repr

/-- `IoPinConfig` (config.h).  `hasDebouncer` models
`debouncer != nullptr`; the Bounce2 library state itself is external. -/
structure PinS where
  id : String
  name : String := ""
  pin : Nat := 0
  pinType : String := "digital"
  mode : String := "output"
  lastValue : Int := -1
  pullMode : Nat := 0
  debounceMs : Nat := 0
  hasDebouncer : Bool := false
deriving DecidableEq, Repr

/-- `findPinById` (config.cpp): first pin whose id matches. -/
def findPinById (pins : List PinS) (id : String) : Option PinS :=
  pins.find? (fun p => p.id == id)

/-- `clampPosition` (stepper.cpp lines 186-190). -/
def clampPosition (s : StepperS) (position : Int) : Int :=
  if position < s.minPosition then s.minPosition
  else if position > s.maxPosition then s.maxPosition
  else position

/-- `sendStepperActionComplete` (stepper.cpp lines 220-244): broadcasts a
completion for the stepper's `pendingCommandId`, or nothing when no
command is pending; the message carries `currentPosition` and, on
failure, the error string. -/
def sendStepperActionComplete (s : StepperS) (success : Bool) (errorMsg : String) :
    List Event :=
  if s.pendingCommandId = "" then []
  else [Event.actionComplete "steppers" s.id s.pendingCommandId success
          (if success = false ∧ errorMsg ≠ "" then some errorMsg else none)
          (some s.currentPosition)]

/-- `stopStepper` (stepper.cpp lines 115-124): force-stop, clear the
pending/homing flags, resync `targetPosition` to the engine's reported
position.  Returns the new state and the engine commands issued. -/
def stopStepper (s : StepperS) (eng : EngineView) : StepperS × List EngineCmd :=
  if s.connected = false then (s, [])
  else ({s with isActionPending := false, isHoming := false,
                targetPosition := eng.pos},
        [EngineCmd.forceStop])

/-- `homeStepperWithSensor` (stepper.cpp lines 141-183): requires a
configured home-sensor id naming an input pin; lowers speed to
`homingSpeed` (or 50 % of `maxSpeed` when unset), re-applies the same
acceleration, issues a one-million-step move in `homingDirection` from
the engine's current position and raises `isHoming`/`isActionPending`.
Returns `none` exactly where the C++ returns `false`. -/
def homeStepperWithSensor (s : StepperS) (pins : List PinS) (eng : EngineView) :
    Option (StepperS × List EngineCmd) :=
  if s.connected = false then none
  else if s.homeSensorId = "" then none
  else
    match findPinById pins s.homeSensorId with
    | none => none
    | some sensorPin =>
      if sensorPin.mode ≠ "input" then none
      else
        let homingSpeed : ℚ :=
          if s.homingSpeed > 0 then s.homingSpeed else s.maxSpeed * (1 / 2)
        let targetPos : Int := eng.pos + s.homingDirection * 1000000
        some ({s with isHoming := true, isActionPending := true},
              [EngineCmd.setSpeed homingSpeed,
               EngineCmd.setAcceleration s.acceleration,
               EngineCmd.moveTo targetPos])

/-- Stepper `control` sub-commands of `handleStepperMessage`
(message_handler.cpp lines 517-654).  `value` models the required
`doc["value"]` field of move/step/setCurrentPosition. -/
inductive StepperCmd
  | setParams (speed accel : Option ℚ) (minPos maxPos : Option Int)
      (stepsPerInch : Option ℚ)
  | move (value : Int) (commandId : Option String)
  | step (value : Int) (commandId : Option String)
  | home
  | stop
  | setCurrentPosition (value : Int)
deriving DecidableEq

/-- Result of one dispatcher action on one stepper. -/
structure StepResult where
  state : StepperS
  cmds : List EngineCmd
  events : List Event
  resp : Response
deriving Repr

/-- The stepper `control` dispatcher of `handleStepperMessage`
(message_handler.cpp lines 517-654), acting on the stepper the handler
found.  Note that `home` (lines 609-616) moves to the midpoint of the
position limits (C++ `long` division truncates toward zero, hence
`Int.tdiv`), without consulting `homeStepperWithSensor`, and `stop`
(lines 617-619) only issues `forceStop`, without consulting
`stopStepper`. -/
def handleStepperControl (s : StepperS) (eng : EngineView) (cmd : StepperCmd) :
    StepResult :=
  match cmd with
  | .setParams speed accel minPos maxPos stepsPerInch =>
    let s1 := match speed with
      | some v => {s with maxSpeed := v}
      | none => s
    let s2 := match accel with
      | some v => {s1 with acceleration := v}
      | none => s1
    let s3 := match minPos with
      | some v => {s2 with minPosition := v}
      | none => s2
    let s4 := match maxPos with
      | some v => {s3 with maxPosition := v}
      | none => s3
    let s5 := match stepsPerInch with
      | some v => {s4 with stepsPerInch := v}
      | none => s4
    let cmds := (match speed with
      | some v => [EngineCmd.setSpeed v]
      | none => []) ++ (match accel with
      | some v => [EngineCmd.setAcceleration v]
      | none => [])
    ⟨s5, cmds, [], .ok "Stepper params updated"⟩
  | .move value commandId =>
    let targetPos := clampPosition s value
    let s1 := match commandId with
      | some c => {s with pendingCommandId := c}
      | none => s
    ⟨{s1 with targetPosition := targetPos, isActionPending := true},
     [EngineCmd.moveTo targetPos], [], .ok "Stepper moving"⟩
  | .step value commandId =>
    let currentPos := eng.pos
    let newPos := clampPosition s (currentPos + value)
    let steps := newPos - currentPos
    let s1 := match commandId with
      | some c => {s with pendingCommandId := c}
      | none => s
    if steps ≠ 0 then
      ⟨{s1 with targetPosition := newPos, isActionPending := true},
       [EngineCmd.moveRel steps], [], .ok "Stepper stepping"⟩
    else
      let evs := match commandId with
        | some c => [Event.actionComplete "steppers" s.id c true none none]
        | none => []
      ⟨s1, [], evs, .ok "Stepper stepping"⟩
  | .home =>
    let homePos := Int.tdiv (s.minPosition + s.maxPosition) 2
    ⟨{s with targetPosition := homePos}, [EngineCmd.moveTo homePos], [],
     .ok "Stepper homing"⟩
  | .stop =>
    ⟨s, [EngineCmd.forceStop], [], .ok "Stepper emergency stop"⟩
  | .setCurrentPosition value =>
    ⟨{s with currentPosition := value, targetPosition := value,
             isActionPending := false, pendingCommandId := ""},
     [EngineCmd.setCurrentPosition value],
     [Event.stepperPosition s.id value],
     .ok "Stepper current position set"⟩

/-- Stepper `configure` payload of `handleStepperMessage`
(message_handler.cpp lines 436-509); `none` fields take the `|` defaults. -/
structure StepperCfgMsg where
  id : String
  name : String
  pulPin : Nat
  dirPin : Nat
  enaPin : Nat := 0
  minPosition : Option Int := none
  maxPosition : Option Int := none
  stepsPerInch : Option ℚ := none
deriving DecidableEq

/-- `findStepperById` (config.cpp): first stepper whose id matches. -/
def findStepperById (l : List StepperS) (id : String) : Option StepperS :=
  l.find? (fun s => s.id == id)

/-- Replace the first list entry whose id matches (the handlers mutate
the found record through a pointer). -/
def replaceStepperFirst (l : List StepperS) (id : String) (s' : StepperS) :
    List StepperS :=
  match l with
  | [] => []
  | t :: rest =>
    if t.id = id then s' :: rest else t :: replaceStepperFirst rest id s'

/-- Stepper `configure` of `handleStepperMessage` (message_handler.cpp
lines 436-509): an existing id updates name/limits/steps-per-inch
without rebinding the engine; a new id binds the engine (`engineOk`
oracle), failing with an error and no registration when the bind fails. -/
def handleStepperConfigure (l : List StepperS) (cfg : StepperCfgMsg)
    (engineOk : Bool) : List StepperS × Response :=
  let minPosition := cfg.minPosition.getD (-50000)
  let maxPosition := cfg.maxPosition.getD 50000
  let stepsPerInch := cfg.stepsPerInch.getD 200
  if cfg.id = "" ∨ cfg.name = "" ∨ cfg.pulPin = 0 ∨ cfg.dirPin = 0 then
    (l, .err "Missing stepper config fields (id, name, pulPin, dirPin)")
  else
    match findStepperById l cfg.id with
    | some ex =>
      (replaceStepperFirst l cfg.id
        {ex with name := cfg.name, minPosition := minPosition,
                 maxPosition := maxPosition, stepsPerInch := stepsPerInch},
       .ok "Stepper configured")
    | none =>
      if engineOk then
        (l ++ [{id := cfg.id, name := cfg.name, pulPin := cfg.pulPin,
                dirPin := cfg.dirPin, enaPin := cfg.enaPin,
                connected := true, minPosition := minPosition,
                maxPosition := maxPosition, stepsPerInch := stepsPerInch}],
         .ok "Stepper configured")
      else (l, .err "Failed to create stepper on pin")

/-- Result of one scheduler tick on one stepper. -/
structure TickResult where
  state : StepperS
  cmds : List EngineCmd
  events : List Event
deriving Repr

/-- Per-stepper body of `updateStepperPositions` (stepper.cpp lines
249-329): the homing branch (sensor poll, force-stop at the configured
offset, abort when the sensor disappears), the normal move-completion
branch, and the rate-limited position report.  `currentPos` is the
engine position read once at the top of the loop body, so the report
comparison at the bottom uses this pre-stop reading even after the
homing branch redefined the position. -/
def updateStepperTick (s : StepperS) (pins : List PinS) (level : Nat → Int)
    (eng : EngineView) (now : Nat) : TickResult :=
  if s.connected = false then ⟨s, [], []⟩
  else
    let currentPos := eng.pos
    let abortHoming : TickResult :=
      let p := stopStepper s eng
      ⟨{p.1 with pendingCommandId := ""}, p.2,
       sendStepperActionComplete p.1 false "Home sensor error"⟩
    let r1 : TickResult :=
      if s.isHoming then
        match findPinById pins s.homeSensorId with
        | some sensorPin =>
          if sensorPin.mode = "input" then
            let sensorValue := level sensorPin.pin
            if sensorValue = s.homeSensorPinActiveState then
              let s1 := {s with currentPosition := s.homePositionOffset,
                                targetPosition := s.homePositionOffset,
                                isHoming := false, isActionPending := false,
                                isHomed := true}
              ⟨{s1 with pendingCommandId := ""},
               [EngineCmd.forceStopAndNewPosition s.homePositionOffset,
                EngineCmd.setSpeed s.maxSpeed,
                EngineCmd.setAcceleration s.acceleration],
               sendStepperActionComplete s1 true "" ++
                 [Event.stepperPosition s1.id s1.currentPosition]⟩
            else ⟨s, [], []⟩
          else abortHoming
        | none => abortHoming
      else if s.isActionPending then
        if eng.running = false then
          let s1 := {s with isActionPending := false,
                            currentPosition := currentPos}
          if s1.pendingCommandId ≠ "" then
            ⟨{s1 with pendingCommandId := ""}, [],
             sendStepperActionComplete s1 true ""⟩
          else ⟨s1, [], []⟩
        else ⟨s, [], []⟩
      else ⟨s, [], []⟩
    let s2 := r1.state
    if stepperPositionReportInterval ≤ now - s2.lastPositionReportTime then
      if currentPos ≠ s2.currentPosition then
        ⟨{s2 with currentPosition := currentPos, lastPositionReportTime := now},
         r1.cmds, r1.events ++ [Event.stepperPosition s2.id currentPos]⟩
      else r1
    else r1

/-- `MAX_SERVO_CHANNELS` (config.h): the ESP32 has 16 PWM channels. -/
def MAX_SERVO_CHANNELS : Int := 16

/-- `ServoConfig` (config.h).  `attached` models `servo.attached()`;
`channel = -1` means no PWM channel is assigned. -/
structure ServoS where
  id : String
  name : String := ""
  pin : Nat := 0
  channel : Int := -1
  attached : Bool := false
  minAngle : Int := 0
  maxAngle : Int := 180
  minPulseWidth : Int := 500
  maxPulseWidth : Int := 2400
  speed : Int := 100
  currentAngle : Int := 90
  targetAngle : Int := 90
  previousAngle : Int := 90
  moveStartTime : Nat := 0
  moveDuration : Nat := 0
  isActionPending : Bool := false
  pendingCommandId : String := ""
deriving DecidableEq, Repr

/-- Global servo state: the `configuredServos` vector plus the
`servoChannelUsed` tracking array (config.cpp), the latter as a function
from channel number to its in-use mark. -/
structure ServoReg where
  servos : List ServoS
  used : Int → Bool

/-- `findServoById` (config.cpp): first servo whose id matches. -/
def findServoById (l : List ServoS) (id : String) : Option ServoS :=
  l.find? (fun s => s.id == id)

/-- `allocateServoChannel` (config.cpp lines 62-76): mark and return the
first free channel, or `-1` when all 16 are in use. -/
def allocateServoChannel (used : Int → Bool) : (Int → Bool) × Int :=
  match (List.range 16).find? (fun i => !used (Int.ofNat i)) with
  | some i => (Function.update used (Int.ofNat i) true, Int.ofNat i)
  | none => (used, -1)

/-- `releaseServoChannel` (config.cpp lines 79-84): clear the mark of a
channel in range; out-of-range values are ignored. -/
def releaseServoChannel (used : Int → Bool) (channel : Int) : Int → Bool :=
  if 0 ≤ channel ∧ channel < MAX_SERVO_CHANNELS then
    Function.update used channel false
  else used

/-- `cleanupServo` (servo.cpp lines 64-72): detach, then release the
assigned channel (if any) and mark it unassigned. -/
def cleanupServo (used : Int → Bool) (s : ServoS) : (Int → Bool) × ServoS :=
  let s1 := {s with attached := false}
  if 0 ≤ s1.channel then
    (releaseServoChannel used s1.channel, {s1 with channel := -1})
  else (used, s1)

/-- Outcome of `servo.attach(...)` inside `initializeServo` (servo.cpp
lines 36-56): on success the servo is attached; on failure the freshly
assigned channel is released and reset to `-1`. -/
def attachPhase (used : Int → Bool) (s : ServoS) (attachOk : Bool) :
    (Int → Bool) × ServoS :=
  if attachOk then (used, {s with attached := true})
  else (releaseServoChannel used s.channel, {s with attached := false, channel := -1})

/-- Second half of `initializeServo` (servo.cpp lines 25-56): allocate
a channel when none is assigned (returning early when the pool is
exhausted), then attach. -/
def initializeServoAttach (used : Int → Bool) (s1 : ServoS) (attachOk : Bool) :
    (Int → Bool) × ServoS :=
  if s1.channel < 0 then
    let a := allocateServoChannel used
    if a.2 < 0 then (a.1, {s1 with channel := a.2})
    else attachPhase a.1 {s1 with channel := a.2} attachOk
  else attachPhase used s1 attachOk

/-- `initializeServo` (servo.cpp lines 10-61): clean up an existing
attachment, force-detach, then allocate-and-attach
(`initializeServoAttach`). -/
def initializeServo (used : Int → Bool) (s : ServoS) (attachOk : Bool) :
    (Int → Bool) × ServoS :=
  let p : (Int → Bool) × ServoS :=
    if s.attached then cleanupServo used s else (used, s)
  initializeServoAttach p.1 {p.2 with attached := false} attachOk

/-- `isValidAngle` (servo.cpp lines 75-77). -/
def isValidAngle (s : ServoS) (angle : Int) : Prop :=
  s.minAngle ≤ angle ∧ angle ≤ s.maxAngle

instance (s : ServoS) (angle : Int) : Decidable (isValidAngle s angle) := by
  unfold isValidAngle
  infer_instance

/-- `moveServo` (servo.cpp lines 80-122): reject an out-of-range angle
with no state change; re-attach transparently when detached (failing if
the attach does not succeed); otherwise record the previous angle, write
the target, update the stored position, reset the timing data and mark
the action pending.  The third component is the C++ return value. -/
def moveServo (used : Int → Bool) (s : ServoS) (angle : Int) (attachOk : Bool) :
    (Int → Bool) × ServoS × Bool :=
  if ¬isValidAngle s angle then (used, s, false)
  else
    let p := if s.attached = false then initializeServo used s attachOk
             else (used, s)
    if p.2.attached = false then (p.1, p.2, false)
    else
      (p.1,
       {p.2 with previousAngle := p.2.currentAngle, targetAngle := angle,
                 currentAngle := angle, moveStartTime := 0, moveDuration := 0,
                 isActionPending := true},
       true)

/-- Servo `configure` payload (`doc["config"]` of `handleServoMessage`,
servo.cpp lines 222-264); `none` fields take the `|` defaults, `channel`
is the optional explicit channel request. -/
structure ServoCfgMsg where
  id : String
  name : String
  pin : Nat
  minAngle : Option Int := none
  maxAngle : Option Int := none
  minPulseWidth : Option Int := none
  maxPulseWidth : Option Int := none
  initialAngle : Option Int := none
  channel : Option Int := none
deriving DecidableEq

/-- Servo messages routed by `handleServoMessage` (servo.cpp lines
217-474).  The legacy `moveServo`/`detachServo` actions duplicate the
`control` move/detach bodies and are not modelled separately. -/
inductive ServoMsg
  | configure (cfg : ServoCfgMsg)
  | controlMove (id : String) (angle : Int) (speed : Option Int)
      (commandId : Option String)
  | controlDetach (id : String)
  | controlSetParams (id : String) (minAngle maxAngle minPulseWidth maxPulseWidth : Option Int)
  | remove (id : String)
deriving DecidableEq

/-- Replace the first servo whose id matches (the handlers mutate the
record returned by `findServoById` through a pointer). -/
def replaceServoFirst (l : List ServoS) (id : String) (s' : ServoS) :
    List ServoS :=
  match l with
  | [] => []
  | t :: rest =>
    if t.id = id then s' :: rest else t :: replaceServoFirst rest id s'

/-- Channel pre-checks of servo `configure` (servo.cpp lines 233-258):
an explicit channel must lie in `0..15` and, when its in-use mark is
set, must already belong to the servo being configured; otherwise the
command is rejected before any state change. -/
def servoChannelCheck (reg : ServoReg) (cfg : ServoCfgMsg) : Option Response :=
  match cfg.channel with
  | none => none
  | some ch =>
    if ch < 0 ∨ MAX_SERVO_CHANNELS ≤ ch then
      some (.err "Invalid servo channel (must be 0-15)")
    else if reg.used ch = true then
      let usedBySelf : Bool := match findServoById reg.servos cfg.id with
        | some ex => ex.channel == ch
        | none => false
      if usedBySelf then none
      else some (.err "Servo channel already in use by another servo")
    else none

/-- Apply the configure field assignments to an existing or fresh servo
record (servo.cpp lines 289-296 / 310-318). -/
def applyServoCfg (s : ServoS) (cfg : ServoCfgMsg) : ServoS :=
  {s with name := cfg.name, pin := cfg.pin,
          minAngle := cfg.minAngle.getD 0,
          maxAngle := cfg.maxAngle.getD 180,
          minPulseWidth := cfg.minPulseWidth.getD 500,
          maxPulseWidth := cfg.maxPulseWidth.getD 2400,
          currentAngle := cfg.initialAngle.getD 90}

/-- Servo `configure` (servo.cpp lines 222-346): channel pre-checks,
required-field validation, then either update-in-place of the existing
record (after `cleanupServo`) or creation of a new one; an explicitly
requested channel is assigned and marked used before `initializeServo`
runs. -/
def servoConfigure (reg : ServoReg) (cfg : ServoCfgMsg) (attachOk : Bool) :
    ServoReg × Response :=
  let chVar : Int := cfg.channel.getD (-1)
  match servoChannelCheck reg cfg with
  | some r => (reg, r)
  | none =>
    if cfg.id = "" ∨ cfg.name = "" ∨ cfg.pin = 0 then
      (reg, .err "Missing servo config fields (id, name, pin)")
    else
      match findServoById reg.servos cfg.id with
      | some ex =>
        let p1 := cleanupServo reg.used ex
        let s2 := applyServoCfg p1.2 cfg
        let p2 := if 0 ≤ chVar then
            (Function.update p1.1 chVar true, {s2 with channel := chVar})
          else (p1.1, s2)
        let p3 := initializeServo p2.1 p2.2 attachOk
        ({servos := replaceServoFirst reg.servos cfg.id p3.2, used := p3.1},
         .ok "Servo configured")
      | none =>
        let s0 := applyServoCfg {id := cfg.id, name := cfg.name, pin := cfg.pin} cfg
        let p1 := if 0 ≤ chVar then
            (Function.update reg.used chVar true, {s0 with channel := chVar})
          else (reg.used, s0)
        let p2 := initializeServo p1.1 p1.2 attachOk
        ({servos := reg.servos ++ [p2.2], used := p2.1}, .ok "Servo configured")

/-- One servo message step (servo.cpp lines 217-474): `configure`, the
`control` sub-commands `move`/`detach`/`setParams`, and `remove`.  For
`move`, the handler clamps a supplied speed into 1..100 and stores a
supplied command id on the servo before calling `moveServo`, so these
writes happen even when the move itself is rejected. -/
def stepServo (reg : ServoReg) (m : ServoMsg) (attachOk : Bool) :
    ServoReg × Response :=
  match m with
  | .configure cfg => servoConfigure reg cfg attachOk
  | .controlMove id angle speed commandId =>
    match findServoById reg.servos id with
    | none => (reg, .err "Servo not found")
    | some s =>
      if angle < 0 then (reg, .err "Missing or invalid angle for servo move")
      else
        let s1 := match speed with
          | some v => {s with speed := if v < 1 then 1 else if 100 < v then 100 else v}
          | none => s
        let s2 := match commandId with
          | some c => {s1 with pendingCommandId := c}
          | none => s1
        let mv := moveServo reg.used s2 angle attachOk
        ({servos := replaceServoFirst reg.servos id mv.2.1, used := mv.1},
         if mv.2.2 then .ok "Servo moving" else .err "Failed to move servo")
  | .controlDetach id =>
    match findServoById reg.servos id with
    | none => (reg, .err "Servo not found")
    | some s =>
      let p := cleanupServo reg.used s
      ({servos := replaceServoFirst reg.servos id p.2, used := p.1},
       .ok "Servo detached")
  | .controlSetParams id minAngle maxAngle minPulseWidth maxPulseWidth =>
    match findServoById reg.servos id with
    | none => (reg, .err "Servo not found")
    | some s =>
      let s1 := match minAngle with
        | some v => {s with minAngle := v}
        | none => s
      let s2 := match maxAngle with
        | some v => {s1 with maxAngle := v}
        | none => s1
      let s3 := match minPulseWidth with
        | some v => {s2 with minPulseWidth := v}
        | none => s2
      let s4 := match maxPulseWidth with
        | some v => {s3 with maxPulseWidth := v}
        | none => s3
      ({servos := replaceServoFirst reg.servos id s4, used := reg.used},
       .ok "Servo parameters updated")
  | .remove id =>
    match findServoById reg.servos id with
    | none => (reg, .err "Servo not found for removal")
    | some s =>
      ({servos := reg.servos.filter (fun t => ¬(t.id = id)),
        used := releaseServoChannel reg.used s.channel},
       .ok "Servo removed")

/-- Replace the first pin whose id matches (the handler mutates the
record returned by `findPinById` through a pointer). -/
def replacePinFirst (l : List PinS) (id : String) (p' : PinS) : List PinS :=
  match l with
  | [] => []
  | t :: rest =>
    if t.id = id then p' :: rest else t :: replacePinFirst rest id p'

/-- The `readPin` action of `handlePinMessage` (message_handler.cpp
lines 157-181): `NotFound` when the id is unknown, an error when the pin
is not an input; otherwise sample the hardware once (`level`/`analog`
oracles), store the sample into `lastValue`, and answer with the value
(third component). -/
def handleReadPin (pins : List PinS) (id : String) (level analog : Nat → Int) :
    List PinS × Response × Option Int :=
  match findPinById pins id with
  | none => (pins, .err "Pin not found", none)
  | some p =>
    if p.mode ≠ "input" then
      (pins, .err "Pin is not configured as input", none)
    else
      let value : Int :=
        if p.pinType = "digital" then level p.pin
        else if p.pinType = "analog" then analog p.pin
        else 0
      (replacePinFirst pins id {p with lastValue := value}, .ok "Pin read",
       some value)

/-- Per-pin body of `updatePinValues` (io_pin.cpp lines 71-124).
Digital inputs with a debouncer report when the Bounce2 state changes
(`dbChanged`/`dbValue` oracles); digital inputs without one report when
the raw level differs from `lastValue`; analog inputs are sampled only
when `analogInputReadInterval` has elapsed since `lastRead` (the
`lastPinReadTime` entry, returned updated) and report when the sample
moves by more than the ±10 noise threshold.  Every report stores the new
value into `lastValue` and broadcasts a value-change event. -/
def pollPin (p : PinS) (level analog : Nat → Int) (dbChanged : Bool)
    (dbValue : Int) (now lastRead : Nat) : PinS × Nat × List Event :=
  if p.mode = "input" then
    if p.pinType = "digital" then
      if p.hasDebouncer then
        if dbChanged then
          ({p with lastValue := dbValue}, lastRead,
           [Event.pinValue p.id dbValue p.pinType p.mode])
        else (p, lastRead, [])
      else
        let currentValue := level p.pin
        if currentValue ≠ p.lastValue then
          ({p with lastValue := currentValue}, lastRead,
           [Event.pinValue p.id currentValue p.pinType p.mode])
        else (p, lastRead, [])
    else if p.pinType = "analog" then
      if analogInputReadInterval ≤ now - lastRead then
        let currentValue := analog p.pin
        if 10 < (currentValue - p.lastValue).natAbs then
          ({p with lastValue := currentValue}, now,
           [Event.pinValue p.id currentValue p.pinType p.mode])
        else (p, now, [])
      else (p, lastRead, [])
    else (p, lastRead, [])
  else (p, lastRead, [])

/-!  Theorems.  -/

theorem clampPosition_mem (s : StepperS) (p : Int)
    (h : s.minPosition ≤ s.maxPosition) :
    s.minPosition ≤ clampPosition s p ∧ clampPosition s p ≤ s.maxPosition := by
  unfold clampPosition
  split_ifs with h1 h2 <;> omega

/-- Claim C4: after a stepper absolute move or relative step the stored
`targetPosition` lies within `[minPosition, maxPosition]` because the
requested position is clamped; and when a relative step clamps to zero
net steps, no command is issued to the engine, the target is unchanged,
and a supplied command id receives one immediate success completion. -/
theorem claim_C4_clamped_moves (s : StepperS) (eng : EngineView) (v : Int)
    (cid : Option String)
    (hwf : s.minPosition ≤ s.maxPosition)
    (ht : s.minPosition ≤ s.targetPosition ∧ s.targetPosition ≤ s.maxPosition) :
    (s.minPosition ≤ (handleStepperControl s eng (.move v cid)).state.targetPosition ∧
      (handleStepperControl s eng (.move v cid)).state.targetPosition ≤ s.maxPosition) ∧
    (s.minPosition ≤ (handleStepperControl s eng (.step v cid)).state.targetPosition ∧
      (handleStepperControl s eng (.step v cid)).state.targetPosition ≤ s.maxPosition) ∧
    (clampPosition s (eng.pos + v) = eng.pos →
      (handleStepperControl s eng (.step v cid)).cmds = [] ∧
      (handleStepperControl s eng (.step v cid)).state.targetPosition =
        s.targetPosition ∧
      ∀ c, cid = some c →
        (handleStepperControl s eng (.step v cid)).events =
          [Event.actionComplete "steppers" s.id c true none none]) := by
  have hc1 := clampPosition_mem s v hwf
  have hc2 := clampPosition_mem s (eng.pos + v) hwf
  refine ⟨?_, ?_, ?_⟩
  · cases cid <;> simpa [handleStepperControl] using hc1
  · by_cases hz : clampPosition s (eng.pos + v) - eng.pos = 0
    · cases cid <;> simp [handleStepperControl, hz] <;> exact ht
    · cases cid <;> simp [handleStepperControl, hz] <;> exact hc2
  · intro h0
    have hz : clampPosition s (eng.pos + v) - eng.pos = 0 := by omega
    refine ⟨?_, ?_, ?_⟩
    · cases cid <;> simp [handleStepperControl, hz]
    · cases cid <;> simp [handleStepperControl, hz]
    · intro c hc
      subst hc
      simp [handleStepperControl, hz]

/-- Concrete instantiation of the C4 theorem: stepper limited to
`[-1000, 1000]` sitting at the upper limit, step by `10` with command id
`B`. -/
def c4Stepper : StepperS :=
  {id := "m1", name := "m1", connected := true, minPosition := -1000,
   maxPosition := 1000}

theorem claim_C4_clamped_moves_witness :
    (c4Stepper.minPosition ≤ c4Stepper.maxPosition ∧
      c4Stepper.minPosition ≤ c4Stepper.targetPosition ∧
      c4Stepper.targetPosition ≤ c4Stepper.maxPosition) ∧
    (clampPosition c4Stepper ((1000 : Int) + 10) = 1000 →
      (handleStepperControl c4Stepper ⟨1000, false⟩ (.step 10 (some "B"))).cmds = [] ∧
      (handleStepperControl c4Stepper ⟨1000, false⟩ (.step 10 (some "B"))).state.targetPosition =
        c4Stepper.targetPosition ∧
      ∀ c, (some "B" : Option String) = some c →
        (handleStepperControl c4Stepper ⟨1000, false⟩ (.step 10 (some "B"))).events =
          [Event.actionComplete "steppers" c4Stepper.id c true none none]) :=
  ⟨⟨by decide, by decide, by decide⟩,
   (claim_C4_clamped_moves c4Stepper ⟨1000, false⟩ 10 (some "B") (by decide)
     ⟨by decide, by decide⟩).2.2⟩

/-- Concrete stepper used to evaluate the dispatcher's `home` command:
no home sensor is configured. -/
def c5Stepper : StepperS :=
  {id := "m1", name := "m1", connected := true, minPosition := -1000,
   maxPosition := 1000}

/-- Result of sending `control home` to `c5Stepper`. -/
def c5Result : StepResult := handleStepperControl c5Stepper ⟨0, false⟩ .home

/-- Claim C5, evaluated at the failing input: the stepper has no
configured home-sensor id, yet the dispatcher's `home` command succeeds
with an `OK` response, moves to the midpoint of the position limits
(`(-1000 + 1000) / 2 = 0`), and never raises `isHoming`; the
`homeStepperWithSensor` helper — which implements the claimed sensor
check, homing-speed reduction and large directional move — refuses this
stepper, but the dispatcher never calls it. -/
theorem claim_C5_home_ignores_sensor :
    c5Stepper.homeSensorId = "" ∧
    c5Result.resp = Response.ok "Stepper homing" ∧
    c5Result.state.isHoming = false ∧
    c5Result.cmds = [EngineCmd.moveTo 0] ∧
    c5Result.state.targetPosition = 0 ∧
    homeStepperWithSensor c5Stepper [] ⟨0, false⟩ = none := by
  refine ⟨by decide, by decide, by decide, by decide, by decide, ?_⟩
  simp [homeStepperWithSensor, c5Stepper]

/-- Concrete stepper used to evaluate the dispatcher's `stop` command:
an in-flight homing move with a stale target. -/
def c7Stepper : StepperS :=
  {id := "m1", name := "m1", connected := true, isActionPending := true,
   isHoming := true, currentPosition := 100, targetPosition := 500}

/-- Engine view at the moment of the stop: position 100, still running. -/
def c7Eng : EngineView := ⟨100, true⟩

/-- Result of sending `control stop` to `c7Stepper`. -/
def c7Result : StepResult := handleStepperControl c7Stepper c7Eng .stop

/-- Claim C7, evaluated at the failing input: the dispatcher's `stop`
only issues `forceStop` and leaves the record untouched —
`isActionPending`/`isHoming` stay raised and `targetPosition` keeps its
stale value 500 instead of resyncing to the engine's reported 100; the
`stopStepper` helper implements exactly the claimed clearing and
resync, but the dispatcher's stop path never calls it. -/
theorem claim_C7_stop_leaves_flags :
    c7Result.state = c7Stepper ∧
    c7Result.cmds = [EngineCmd.forceStop] ∧
    c7Result.resp = Response.ok "Stepper emergency stop" ∧
    c7Stepper.isActionPending = true ∧
    c7Stepper.targetPosition = 500 ∧
    (stopStepper c7Stepper c7Eng).1.isActionPending = false ∧
    (stopStepper c7Stepper c7Eng).1.isHoming = false ∧
    (stopStepper c7Stepper c7Eng).1.targetPosition = 100 ∧
    (stopStepper c7Stepper c7Eng).2 = [EngineCmd.forceStop] := by
  refine ⟨by decide, by decide, by decide, by decide, by decide, ?_, ?_, ?_, ?_⟩ <;>
    decide

/-- Claim C6 (amended): on a tick where a homing stepper's sensor reads
its configured active level, the engine is force-stopped at
`homePositionOffset`, both stored positions become the offset, `isHomed`
rises, the homing/pending flags and pending command id clear, normal
speed and acceleration are restored, and — a pending command id being
present — exactly one success completion is broadcast, followed by one
position update; this is the tick's final state provided the
position-report interval has not yet elapsed (otherwise the report
branch at the bottom of the loop body overwrites `currentPosition` with
the stale pre-stop engine reading, see the counterexample). -/
theorem claim_C6_homing_trigger (s : StepperS) (pins : List PinS)
    (level : Nat → Int) (eng : EngineView) (now : Nat) (sensorPin : PinS)
    (hconn : s.connected = true) (hhom : s.isHoming = true)
    (hfind : findPinById pins s.homeSensorId = some sensorPin)
    (hmode : sensorPin.mode = "input")
    (hlvl : level sensorPin.pin = s.homeSensorPinActiveState)
    (hcid : s.pendingCommandId ≠ "")
    (hrate : now - s.lastPositionReportTime < stepperPositionReportInterval) :
    updateStepperTick s pins level eng now =
      ⟨{s with currentPosition := s.homePositionOffset,
               targetPosition := s.homePositionOffset,
               isHoming := false, isActionPending := false, isHomed := true,
               pendingCommandId := ""},
       [EngineCmd.forceStopAndNewPosition s.homePositionOffset,
        EngineCmd.setSpeed s.maxSpeed,
        EngineCmd.setAcceleration s.acceleration],
       [Event.actionComplete "steppers" s.id s.pendingCommandId true none
          (some s.homePositionOffset),
        Event.stepperPosition s.id s.homePositionOffset]⟩ := by
  have hr : ¬(stepperPositionReportInterval ≤ now - s.lastPositionReportTime) := by
    omega
  simp [updateStepperTick, hconn, hhom, hfind, hmode, hlvl,
    sendStepperActionComplete, hcid, hr]

/-- Concrete homing stepper for the C6 scenarios: sensor pin `hs` on
GPIO 4, active-high, home offset 0, a pending command `c`, current
position 400. -/
def c6Stepper : StepperS :=
  {id := "m1", name := "m1", connected := true, isHoming := true,
   isActionPending := true, homeSensorId := "hs",
   homeSensorPinActiveState := 1, homePositionOffset := 0,
   pendingCommandId := "c", currentPosition := 400, targetPosition := 400,
   lastPositionReportTime := 20}

/-- The configured home-sensor pin of `c6Stepper`. -/
def c6Sensor : PinS := {id := "hs", name := "hs", pin := 4, mode := "input"}

/-- Pin registry holding just the home sensor. -/
def c6Pins : List PinS := [c6Sensor]

/-- Raw digital levels during the triggering tick: every pin reads high. -/
def c6Level : Nat → Int := fun _ => 1

theorem claim_C6_homing_trigger_witness :
    (findPinById c6Pins c6Stepper.homeSensorId = some c6Sensor ∧
      c6Sensor.mode = "input" ∧
      c6Level c6Sensor.pin = c6Stepper.homeSensorPinActiveState ∧
      c6Stepper.pendingCommandId ≠ "" ∧
      (50 : Nat) - c6Stepper.lastPositionReportTime <
        stepperPositionReportInterval) ∧
    updateStepperTick c6Stepper c6Pins c6Level ⟨400, true⟩ 50 =
      ⟨{c6Stepper with currentPosition := c6Stepper.homePositionOffset,
                       targetPosition := c6Stepper.homePositionOffset,
                       isHoming := false, isActionPending := false,
                       isHomed := true, pendingCommandId := ""},
       [EngineCmd.forceStopAndNewPosition c6Stepper.homePositionOffset,
        EngineCmd.setSpeed c6Stepper.maxSpeed,
        EngineCmd.setAcceleration c6Stepper.acceleration],
       [Event.actionComplete "steppers" c6Stepper.id c6Stepper.pendingCommandId
          true none (some c6Stepper.homePositionOffset),
        Event.stepperPosition c6Stepper.id c6Stepper.homePositionOffset]⟩ :=
  ⟨⟨by decide, by decide, by decide, by decide, by decide⟩,
   claim_C6_homing_trigger c6Stepper c6Pins c6Level ⟨400, true⟩ 50 c6Sensor
     (by decide) (by decide) (by decide) (by decide) (by decide) (by decide)
     (by decide)⟩

/-- Same stepper but with the report interval already elapsed
(`lastPositionReportTime = 0`, `now = 1000`) and the engine still away
from the offset (reading 500) when the sensor triggers. -/
def c6xStepper : StepperS :=
  {c6Stepper with lastPositionReportTime := 0}

/-- The tick evaluated at the counterexample input. -/
def c6xResult : TickResult :=
  updateStepperTick c6xStepper c6Pins c6Level ⟨500, true⟩ 1000

/-- Claim C6, as stated, is false: with the sensor at its active level
on the tick, the final `currentPosition` is the stale pre-stop engine
reading 500, not `homePositionOffset = 0`, because the position-report
branch at the bottom of `updateStepperPositions` compares against the
engine position read before the force-stop and overwrites the offset
just written by the homing branch. -/
theorem claim_C6_counterexample :
    (findPinById c6Pins c6xStepper.homeSensorId = some c6Sensor ∧
      c6Sensor.mode = "input" ∧ c6xStepper.isHoming = true ∧
      c6Level c6Sensor.pin = c6xStepper.homeSensorPinActiveState) ∧
    c6xStepper.homePositionOffset = 0 ∧
    c6xResult.state.currentPosition = 500 ∧
    c6xResult.state.currentPosition ≠ c6xStepper.homePositionOffset := by
  refine ⟨⟨by decide, by decide, by decide, by decide⟩, by decide, ?_, ?_⟩ <;>
    decide

/-- Stepper for the C1 trace: sitting at the upper limit 1000 of
`[-1000, 1000]`. -/
def c1Stepper : StepperS :=
  {id := "m1", name := "m1", connected := true, minPosition := -1000,
   maxPosition := 1000, currentPosition := 1000, targetPosition := 1000}

/-- Request 1: relative step by `10` carrying command id `A`; the target
clamps back to the current position, so zero net steps result and the
handler broadcasts an immediate success completion for `A`. -/
def c1AfterStep : StepResult :=
  handleStepperControl c1Stepper ⟨1000, false⟩ (.step 10 (some "A"))

/-- Request 2: absolute move to `500` carrying no command id. -/
def c1AfterMove : StepResult :=
  handleStepperControl c1AfterStep.state ⟨1000, false⟩ (.move 500 none)

/-- Scheduler tick after the engine finished the move to 500. -/
def c1Tick : TickResult :=
  updateStepperTick c1AfterMove.state [] (fun _ => 0) ⟨500, false⟩ 1000

/-- All broadcast events of the three-step trace. -/
def c1AllEvents : List Event :=
  c1AfterStep.events ++ c1AfterMove.events ++ c1Tick.events

/-- Does an event complete the given command id? -/
def isCompletionFor (cid : String) (e : Event) : Bool :=
  match e with
  | .actionComplete _ _ c _ _ _ => c == cid
  | _ => false

/-- Claim C1, evaluated at the failing input: command id `A` is carried
by exactly one request (the zero-step `step`), yet the trace broadcasts
two `actionComplete` events correlated to `A` — the immediate one from
the zero-step branch, and a second one when the later, id-less `move`
completes, because the zero-step branch stores the command id on the
stepper but never clears it after its immediate completion. -/
theorem claim_C1_duplicate_completion :
    c1AfterStep.state.pendingCommandId = "A" ∧
    c1AfterStep.cmds = [] ∧
    (c1AllEvents.countP (isCompletionFor "A")) = 2 := by
  refine ⟨by decide, by decide, ?_⟩
  decide

/-!  Servo lemmas.  -/

theorem findServoById_eq_some {l : List ServoS} {id : String} {s : ServoS}
    (h : findServoById l id = some s) : s ∈ l ∧ s.id = id := by
  unfold findServoById at h
  refine ⟨List.mem_of_find?_eq_some h, ?_⟩
  have := List.find?_some h
  exact eq_of_beq this

theorem findServoById_eq_none {l : List ServoS} {id : String}
    (h : findServoById l id = none) : ∀ t ∈ l, t.id ≠ id := by
  intro t ht
  have := List.find?_eq_none.mp h t ht
  simpa using this

theorem mem_replaceServoFirst {l : List ServoS} {id : String} {s' t : ServoS}
    (h : t ∈ replaceServoFirst l id s') : t = s' ∨ t ∈ l := by
  induction l with
  | nil => simp [replaceServoFirst] at h
  | cons a rest ih =>
    unfold replaceServoFirst at h
    by_cases ha : a.id = id
    · simp [ha] at h
      rcases h with h | h
      · exact Or.inl h
      · exact Or.inr (List.mem_cons_of_mem _ h)
    · simp [ha] at h
      rcases h with h | h
      · exact Or.inr (by simp [h])
      · rcases ih h with h1 | h1
        · exact Or.inl h1
        · exact Or.inr (List.mem_cons_of_mem _ h1)

/-- The angle-relevant fields of a servo record. -/
def anglesOf (s : ServoS) : Int × Int × Int :=
  (s.minAngle, s.maxAngle, s.currentAngle)

theorem anglesOf_cleanupServo (u : Int → Bool) (s : ServoS) :
    anglesOf (cleanupServo u s).2 = anglesOf s := by
  simp only [cleanupServo]
  split_ifs <;> rfl

theorem anglesOf_attachPhase (u : Int → Bool) (s : ServoS) (ok : Bool) :
    anglesOf (attachPhase u s ok).2 = anglesOf s := by
  simp only [attachPhase]
  split_ifs <;> rfl

theorem anglesOf_initializeServoAttach (u : Int → Bool) (s : ServoS)
    (ok : Bool) : anglesOf (initializeServoAttach u s ok).2 = anglesOf s := by
  simp only [initializeServoAttach, attachPhase]
  split_ifs <;> rfl

theorem anglesOf_initializeServo (u : Int → Bool) (s : ServoS) (ok : Bool) :
    anglesOf (initializeServo u s ok).2 = anglesOf s := by
  simp only [initializeServo, cleanupServo, initializeServoAttach, attachPhase]
  split_ifs <;> rfl

theorem moveServo_angle_inv (u : Int → Bool) (s : ServoS) (angle : Int)
    (ok : Bool)
    (h : s.minAngle ≤ s.currentAngle ∧ s.currentAngle ≤ s.maxAngle) :
    (moveServo u s angle ok).2.1.minAngle ≤
      (moveServo u s angle ok).2.1.currentAngle ∧
    (moveServo u s angle ok).2.1.currentAngle ≤
      (moveServo u s angle ok).2.1.maxAngle := by
  simp only [moveServo]
  by_cases hv : isValidAngle s angle
  · have hva := hv
    unfold isValidAngle at hva
    rw [if_neg (by simpa using hv)]
    have hang : anglesOf (if s.attached = false then initializeServo u s ok
        else (u, s)).2 = anglesOf s := by
      split
      · exact anglesOf_initializeServo u s ok
      · rfl
    unfold anglesOf at hang
    simp only [Prod.mk.injEq] at hang
    obtain ⟨e1, e2, e3⟩ := hang
    split <;> rename_i hcase
    · rw [if_pos hcase] at e1 e2 e3
      split <;> (try dsimp only) <;> omega
    · (try dsimp only)
      omega
  · rw [if_pos (by simpa using hv)]
    exact h

/-- The angle invariant of the spec: every servo's current angle lies
within its configured `[minAngle, maxAngle]`. -/
def AngleInv (l : List ServoS) : Prop :=
  ∀ s ∈ l, s.minAngle ≤ s.currentAngle ∧ s.currentAngle ≤ s.maxAngle

instance : DecidablePred AngleInv := fun l => by
  unfold AngleInv
  infer_instance

/-- Claim C2 (amended): the `move` operation preserves the angle
invariant — an out-of-range request leaves the angles untouched and an
in-range request writes an angle inside the (unchanged) bounds.  The
other two operations named by the claim do not preserve it: `configure`
stores `initialAngle` (defaulting to 90) without checking it against
the configured bounds, and `setParams` moves the bounds without
re-clamping `currentAngle` (see the counterexample). -/
theorem claim_C2_move_preserves_angle_inv (reg : ServoReg) (id : String)
    (angle : Int) (sp : Option Int) (cid : Option String) (ok : Bool)
    (h : AngleInv reg.servos) :
    AngleInv (stepServo reg (.controlMove id angle sp cid) ok).1.servos := by
  simp only [stepServo]
  cases hf : findServoById reg.servos id with
  | none => simp only [hf]; exact h
  | some s =>
    simp only [hf]
    by_cases hneg : angle < 0
    · rw [if_pos hneg]
      exact h
    · rw [if_neg hneg]
      have hs := (findServoById_eq_some hf).1
      have hP := h s hs
      intro t ht
      dsimp only at ht
      rcases mem_replaceServoFirst ht with rfl | htl
      · refine moveServo_angle_inv _ _ angle ok ?_
        cases sp <;> cases cid <;> dsimp only <;> exact hP
      · exact h t htl

/-- Servo registry with one default-bounds servo at 90 degrees, for the
C2 witness. -/
def c2wReg : ServoReg :=
  {servos := [{id := "s1", name := "n", pin := 5, channel := 0,
               attached := true}],
   used := fun c => c == 0}

theorem claim_C2_move_preserves_angle_inv_witness :
    AngleInv c2wReg.servos ∧
    AngleInv (stepServo c2wReg (.controlMove "s1" 200 none none) true).1.servos :=
  ⟨by decide,
   claim_C2_move_preserves_angle_inv c2wReg "s1" 200 none none true (by decide)⟩

/-- Empty servo registry. -/
def c2Reg0 : ServoReg := {servos := [], used := fun _ => false}

/-- Configure request with `minAngle = 100`, `maxAngle = 180` and no
`initialAngle`, so the handler stores the default 90. -/
def c2Cfg : ServoCfgMsg :=
  {id := "s1", name := "n", pin := 5, minAngle := some 100,
   maxAngle := some 180}

/-- State after configuring `c2Cfg` into the empty registry. -/
def c2Result : ServoReg × Response := stepServo c2Reg0 (.configure c2Cfg) true

/-- Claim C2, as stated, is false: starting from the empty registry
(which satisfies the invariant trivially), one `configure` with bounds
`[100, 180]` and no `initialAngle` produces a servo whose
`currentAngle` is the unvalidated default 90, outside its own bounds. -/
theorem claim_C2_counterexample :
    AngleInv c2Reg0.servos ∧
    c2Result.1.servos.map (fun s => (s.currentAngle, s.minAngle, s.maxAngle)) =
      [(90, 100, 180)] ∧
    ¬ AngleInv c2Result.1.servos := by
  refine ⟨by decide, by decide, by decide⟩

/-- Claim C3 (amended): a `move` request whose angle is outside the
servo's range fails with the move error and leaves the angle fields,
attachment, channel, timing and pending flag untouched — but the
handler stores a supplied `speed` (clamped into 1..100) and a supplied
`commandId` on the servo before validating the angle, so those two
fields do change. -/
theorem claim_C3_invalid_angle_partial_frame (reg : ServoReg) (id : String)
    (angle : Int) (sp : Option Int) (cid : Option String) (ok : Bool)
    (s : ServoS)
    (hfind : findServoById reg.servos id = some s)
    (hpos : 0 ≤ angle)
    (hinv : ¬ isValidAngle s angle) :
    stepServo reg (.controlMove id angle sp cid) ok =
      ({servos := replaceServoFirst reg.servos id
          {s with speed := match sp with
                    | some v => if v < 1 then 1 else if 100 < v then 100 else v
                    | none => s.speed,
                  pendingCommandId := match cid with
                    | some c => c
                    | none => s.pendingCommandId},
        used := reg.used},
       Response.err "Failed to move servo") := by
  cases sp <;> cases cid
  all_goals
    simp only [stepServo, hfind]
    rw [if_neg (by omega)]
    unfold moveServo
    rw [if_pos (by simp only [isValidAngle] at hinv ⊢; exact hinv)]
    rfl

/-- Registry with one freshly configured default servo, for the C3
scenarios. -/
def c3Servo : ServoS :=
  {id := "s1", name := "n", pin := 5, channel := 0, attached := true}

/-- Registry holding `c3Servo` with its channel marked used. -/
def c3Reg : ServoReg := {servos := [c3Servo], used := fun c => c == 0}

/-- Result of `control move` to angle 200 with `speed = 50` and
`commandId = "x"` on the default-bounds servo. -/
def c3Result : ServoReg × Response :=
  stepServo c3Reg (.controlMove "s1" 200 (some 50) (some "x")) true

/-- Claim C3, as stated, is false: the out-of-range move is rejected,
but the servo record is not left unchanged — `speed` changes from 100
to 50 and `pendingCommandId` from empty to `x`. -/
theorem claim_C3_counterexample :
    c3Result.2 = Response.err "Failed to move servo" ∧
    c3Result.1.servos ≠ c3Reg.servos ∧
    findServoById c3Result.1.servos "s1" =
      some {c3Servo with speed := 50, pendingCommandId := "x"} ∧
    c3Servo.speed = 100 ∧ c3Servo.pendingCommandId = "" := by
  refine ⟨by decide, by decide, by decide, by decide, by decide⟩

theorem claim_C3_invalid_angle_partial_frame_witness :
    (findServoById c3Reg.servos "s1" = some c3Servo ∧ (0 : Int) ≤ 200 ∧
      ¬ isValidAngle c3Servo 200) ∧
    stepServo c3Reg (.controlMove "s1" 200 (some 50) (some "x")) true =
      ({servos := replaceServoFirst c3Reg.servos "s1"
          {c3Servo with speed := 50, pendingCommandId := "x"},
        used := c3Reg.used},
       Response.err "Failed to move servo") :=
  ⟨⟨by decide, by decide, by decide⟩,
   claim_C3_invalid_angle_partial_frame c3Reg "s1" 200 (some 50) (some "x")
     true c3Servo (by decide) (by decide) (by decide)⟩

theorem allocateServoChannel_spec (used : Int → Bool) :
    (0 ≤ (allocateServoChannel used).2 →
      (allocateServoChannel used).2 < 16 ∧
      used (allocateServoChannel used).2 = false ∧
      (allocateServoChannel used).1 =
        Function.update used (allocateServoChannel used).2 true) ∧
    ((allocateServoChannel used).2 < 0 →
      (allocateServoChannel used).2 = -1 ∧
      (allocateServoChannel used).1 = used) := by
  unfold allocateServoChannel
  cases hfind : (List.range 16).find? (fun i => !used (Int.ofNat i)) with
  | none => simp
  | some i =>
    have hmem := List.mem_of_find?_eq_some hfind
    have hi : i < 16 := List.mem_range.mp hmem
    have hpred := List.find?_some hfind
    have hused : used (Int.ofNat i) = false := by
      simpa using hpred
    dsimp only
    refine ⟨fun _ => ⟨?_, hused, rfl⟩,
      fun hneg => absurd hneg (by rw [Int.ofNat_eq_natCast]; omega)⟩
    rw [Int.ofNat_eq_natCast]
    exact_mod_cast hi

theorem initializeServo_attach_fail (used : Int → Bool) (s : ServoS)
    (hatt : s.attached = false) (hch : s.channel = -1) :
    (initializeServo used s false).2 =
      {s with attached := false, channel := -1} ∧
    ∀ ch, (initializeServo used s false).1 ch = used ch := by
  have halloc := allocateServoChannel_spec used
  simp only [initializeServo, initializeServoAttach, hatt, Bool.false_eq_true,
    if_false, hch]
  rw [if_pos (by simp [hch])]
  by_cases ha : (allocateServoChannel used).2 < 0
  · obtain ⟨hval, hu⟩ := halloc.2 ha
    rw [if_pos ha]
    refine ⟨by rw [hval], fun ch => by rw [hu]⟩
  · obtain ⟨hlt, hused, hu⟩ := halloc.1 (by omega)
    rw [if_neg ha]
    simp only [attachPhase, Bool.false_eq_true, if_false]
    refine ⟨by trivial, ?_⟩
    intro ch
    rw [releaseServoChannel]
    rw [if_pos ⟨by omega, by simp only [MAX_SERVO_CHANNELS]; omega⟩]
    rw [hu]
    by_cases hc : ch = (allocateServoChannel used).2
    · subst hc
      simp [Function.update, hused]
    · simp [Function.update, hc]

/-- Claim C9 (amended): when the motion engine cannot be bound during a
stepper `configure`, the client gets an error response and the stepper
is not registered; when the servo attach fails during a servo
`configure` of a new id (no explicit channel), the servo record is
left detached with its freshly allocated PWM channel released
(`channel = -1`, every channel mark as before) — but, contrary to the
claim as stated, the record is still appended to the registry and the
client receives the success acknowledgement (see the counterexample). -/
theorem claim_C9_alloc_failure (l : List StepperS) (cfg : StepperCfgMsg)
    (reg : ServoReg) (c : ServoCfgMsg)
    (hsf : findStepperById l cfg.id = none)
    (hsne : ¬(cfg.id = "" ∨ cfg.name = "" ∨ cfg.pulPin = 0 ∨ cfg.dirPin = 0))
    (hvf : findServoById reg.servos c.id = none)
    (hch : c.channel = none)
    (hvne : ¬(c.id = "" ∨ c.name = "" ∨ c.pin = 0)) :
    handleStepperConfigure l cfg false =
      (l, Response.err "Failed to create stepper on pin") ∧
    (stepServo reg (.configure c) false).2 = Response.ok "Servo configured" ∧
    (stepServo reg (.configure c) false).1.servos =
      reg.servos ++
        [{applyServoCfg {id := c.id, name := c.name, pin := c.pin} c with
            attached := false, channel := -1}] ∧
    ∀ ch, (stepServo reg (.configure c) false).1.used ch = reg.used ch := by
  have hstep : handleStepperConfigure l cfg false =
      (l, Response.err "Failed to create stepper on pin") := by
    simp only [handleStepperConfigure]
    rw [if_neg hsne, hsf]
    simp
  have hinit := initializeServo_attach_fail reg.used
    (applyServoCfg {id := c.id, name := c.name, pin := c.pin} c) rfl rfl
  have hred : stepServo reg (.configure c) false =
      ({servos := reg.servos ++
          [(initializeServo reg.used
              (applyServoCfg {id := c.id, name := c.name, pin := c.pin} c)
              false).2],
        used := (initializeServo reg.used
            (applyServoCfg {id := c.id, name := c.name, pin := c.pin} c)
            false).1},
       Response.ok "Servo configured") := by
    simp only [stepServo, servoConfigure, servoChannelCheck, hch, Option.getD]
    rw [if_neg hvne, hvf]
    simp
  refine ⟨hstep, ?_, ?_, ?_⟩
  · rw [hred]
  · rw [hred]
    simp only [hinit.1]
  · intro ch
    rw [hred]
    exact hinit.2 ch

/-- Configure request for a fresh servo `s2` (no explicit channel). -/
def c9Cfg : ServoCfgMsg := {id := "s2", name := "n", pin := 6}

/-- Result of configuring `c9Cfg` into the empty registry when the
hardware attach fails. -/
def c9Result : ServoReg × Response := stepServo c2Reg0 (.configure c9Cfg) false

/-- Claim C9, as stated, is false for servos: when `servo.attach` fails
during `configure`, `initializeServo` does release the channel and
leave the servo detached, but `handleServoMessage` still appends the
record to `configuredServos` and sends the success response
`Servo configured` — the client gets a success acknowledgement, not an
error. -/
theorem claim_C9_counterexample :
    c9Result.2 = Response.ok "Servo configured" ∧
    c9Result.1.servos.map (fun s => (s.id, s.attached, s.channel)) =
      [("s2", false, -1)] := by
  exact ⟨by decide, by decide⟩

/-- Stepper configure request for a fresh stepper `m2`. -/
def c9StepperCfg : StepperCfgMsg :=
  {id := "m2", name := "n", pulPin := 7, dirPin := 8}

theorem claim_C9_alloc_failure_witness :
    (findStepperById [] c9StepperCfg.id = none ∧
      findServoById c2Reg0.servos c9Cfg.id = none ∧
      c9Cfg.channel = none) ∧
    handleStepperConfigure [] c9StepperCfg false =
      ([], Response.err "Failed to create stepper on pin") ∧
    (stepServo c2Reg0 (.configure c9Cfg) false).2 =
      Response.ok "Servo configured" ∧
    (stepServo c2Reg0 (.configure c9Cfg) false).1.servos =
      c2Reg0.servos ++
        [{applyServoCfg {id := c9Cfg.id, name := c9Cfg.name, pin := c9Cfg.pin}
            c9Cfg with attached := false, channel := -1}] ∧
    ∀ ch, (stepServo c2Reg0 (.configure c9Cfg) false).1.used ch =
      c2Reg0.used ch :=
  ⟨⟨by decide, by decide, by decide⟩,
   claim_C9_alloc_failure [] c9StepperCfg c2Reg0 c9Cfg (by decide) (by decide)
     (by decide) (by decide) (by decide)⟩

/-- Pin registry for the C10 scenarios: one digital input without a
debouncer, last observed value 0. -/
def c10Pins : List PinS :=
  [{id := "p1", name := "p1", pin := 9, pinType := "digital", mode := "input",
    lastValue := 0}]

/-- Claim C10: a successful `readPin` on an input pin overwrites the
stored `lastValue` with the freshly sampled value, so the next poll of
a digital, non-debounced input reports a change exactly when the new
raw level differs from the value `readPin` just returned — a manual
read can swallow the change report the poll would otherwise have made. -/
theorem claim_C10_read_overwrites_lastValue (pins : List PinS) (id : String)
    (level analog : Nat → Int) (p : PinS) (r : Int) (now lastRead : Nat)
    (hfind : findPinById pins id = some p)
    (hmode : p.mode = "input") (htype : p.pinType = "digital")
    (hdb : p.hasDebouncer = false) :
    (handleReadPin pins id level analog).2.2 = some (level p.pin) ∧
    (handleReadPin pins id level analog).1 =
      replacePinFirst pins id {p with lastValue := level p.pin} ∧
    (let p' := {p with lastValue := level p.pin}
     (r = level p.pin →
        pollPin p' (fun _ => r) analog false 0 now lastRead = (p', lastRead, [])) ∧
     (r ≠ level p.pin →
        pollPin p' (fun _ => r) analog false 0 now lastRead =
          ({p' with lastValue := r}, lastRead,
           [Event.pinValue p.id r p.pinType p.mode]))) := by
  have hm2 : ¬(p.mode ≠ "input") := by simp [hmode]
  refine ⟨?_, ?_, ?_, ?_⟩
  · simp only [handleReadPin, hfind]
    rw [if_neg hm2]
    simp [htype]
  · simp only [handleReadPin, hfind]
    rw [if_neg hm2]
    simp [htype]
  · intro hr
    simp only [pollPin]
    simp [hmode, htype, hdb, hr]
  · intro hr
    simp only [pollPin]
    simp [hmode, htype, hdb, hr]

theorem claim_C10_read_overwrites_lastValue_witness :
    (findPinById c10Pins "p1" =
      some {id := "p1", name := "p1", pin := 9, pinType := "digital",
            mode := "input", lastValue := 0}) ∧
    (handleReadPin c10Pins "p1" (fun _ => 1) (fun _ => 0)).2.2 = some 1 ∧
    ((1 : Int) = 1 →
      pollPin {id := "p1", name := "p1", pin := 9, pinType := "digital",
               mode := "input", lastValue := 1} (fun _ => 1) (fun _ => 0)
        false 0 500 0 =
      ({id := "p1", name := "p1", pin := 9, pinType := "digital",
        mode := "input", lastValue := 1}, 0, [])) :=
  ⟨by decide,
   (claim_C10_read_overwrites_lastValue c10Pins "p1" (fun _ => 1) (fun _ => 0)
     {id := "p1", name := "p1", pin := 9, pinType := "digital",
      mode := "input", lastValue := 0} 1 500 0 (by decide) (by decide)
     (by decide) (by decide)).1,
   (claim_C10_read_overwrites_lastValue c10Pins "p1" (fun _ => 1) (fun _ => 0)
     {id := "p1", name := "p1", pin := 9, pinType := "digital",
      mode := "input", lastValue := 0} 1 500 0 (by decide) (by decide)
     (by decide) (by decide)).2.2.1⟩

/-!  PWM-channel allocation invariant (claim C8).  -/

/-- Two servos never hold the same assigned channel. -/
def ChanRel (a b : ServoS) : Prop :=
  ¬(0 ≤ a.channel ∧ a.channel = b.channel)

instance : DecidableRel ChanRel := fun a b => by
  unfold ChanRel
  infer_instance

/-- Reachable-state invariant of the channel pool: servo ids are unique,
every assigned channel is in range and marked used in
`servoChannelUsed`, and no two servos hold the same assigned channel. -/
def ChanInv (used : Int → Bool) (l : List ServoS) : Prop :=
  (l.map (fun s => s.id)).Nodup ∧
  (∀ s ∈ l, 0 ≤ s.channel → s.channel < 16 ∧ used s.channel = true) ∧
  List.Pairwise ChanRel l

instance (used : Int → Bool) : DecidablePred (ChanInv used) := fun l => by
  unfold ChanInv
  infer_instance

theorem chanRel_symm : Symmetric ChanRel := by
  intro a b hab
  intro hba
  exact hab ⟨hba.2 ▸ hba.1, hba.2.symm⟩

theorem findServoById_cons_self {t : ServoS} {rest : List ServoS} {id : String}
    (h : t.id = id) : findServoById (t :: rest) id = some t := by
  unfold findServoById
  simp [List.find?_cons, h]

theorem findServoById_cons_ne {t : ServoS} {rest : List ServoS} {id : String}
    (h : ¬ t.id = id) : findServoById (t :: rest) id = findServoById rest id := by
  unfold findServoById
  simp [List.find?_cons, h]

theorem replaceServoFirst_map_id {l : List ServoS} {id : String} {s' : ServoS}
    (h : s'.id = id) :
    (replaceServoFirst l id s').map (fun s => s.id) = l.map (fun s => s.id) := by
  induction l with
  | nil => rfl
  | cons t rest ih =>
    unfold replaceServoFirst
    by_cases ht : t.id = id
    · simp [ht, h]
    · simp [ht, ih]

/-- Master preservation lemma: replacing the servo found by
`findServoById` with a record `s'` keeps the channel invariant, provided
the new mark state `u'` keeps every mark other than the replaced
servo's own channel, and `s'`'s channel (when assigned) is in range,
marked, and either the replaced servo's own channel or a previously
unmarked one. -/
theorem chanInv_replaceServoFirst {used u' : Int → Bool} {l : List ServoS}
    {id : String} {s s' : ServoS}
    (hInv : ChanInv used l)
    (hfind : findServoById l id = some s)
    (hid : s'.id = s.id)
    (hmarks : ∀ c, 0 ≤ c → c ≠ s.channel → used c = true → u' c = true)
    (hfresh : 0 ≤ s'.channel → s'.channel < 16 ∧ u' s'.channel = true ∧
        (s'.channel = s.channel ∨ used s'.channel = false)) :
    ChanInv u' (replaceServoFirst l id s') := by
  revert hInv hfind
  induction l with
  | nil =>
    intro hInv hfind
    simp [findServoById] at hfind
  | cons t rest ih =>
    intro hInv hfind
    obtain ⟨hnd, hinv1, hpw⟩ := hInv
    rw [List.map_cons, List.nodup_cons] at hnd
    rw [List.pairwise_cons] at hpw
    by_cases htid : t.id = id
    · rw [findServoById_cons_self htid] at hfind
      injection hfind with hts
      subst hts
      unfold replaceServoFirst
      rw [if_pos htid]
      refine ⟨?_, ?_, ?_⟩
      · rw [List.map_cons, List.nodup_cons]
        rw [hid]
        exact hnd
      · intro x hx h0
        rcases List.mem_cons.mp hx with rfl | hxr
        · exact ⟨(hfresh h0).1, (hfresh h0).2.1⟩
        · obtain ⟨hlt, hmk⟩ := hinv1 x (List.mem_cons_of_mem _ hxr) h0
          refine ⟨hlt, hmarks x.channel h0 ?_ hmk⟩
          intro hceq
          exact hpw.1 x hxr ⟨by omega, by omega⟩
      · rw [List.pairwise_cons]
        refine ⟨?_, hpw.2⟩
        intro x hxr
        rintro ⟨h0, heq⟩
        rcases (hfresh h0).2.2 with hown | hunm
        · exact hpw.1 x hxr ⟨by omega, by omega⟩
        · obtain ⟨_, hmk⟩ := hinv1 x (List.mem_cons_of_mem _ hxr) (by omega)
          rw [← heq, hunm] at hmk
          exact Bool.false_ne_true hmk
    · rw [findServoById_cons_ne htid] at hfind
      have hrest : ChanInv used rest :=
        ⟨hnd.2, fun x hx => hinv1 x (List.mem_cons_of_mem _ hx), hpw.2⟩
      obtain ⟨ind, iinv1, ipw⟩ := ih hrest hfind
      obtain ⟨hsmem, hsid⟩ := findServoById_eq_some hfind
      unfold replaceServoFirst
      rw [if_neg htid]
      refine ⟨?_, ?_, ?_⟩
      · rw [List.map_cons, List.nodup_cons]
        rw [replaceServoFirst_map_id (hid.trans hsid)]
        exact ⟨hnd.1, hnd.2⟩
      · intro x hx h0
        rcases List.mem_cons.mp hx with rfl | hxr
        · obtain ⟨hlt, hmk⟩ := hinv1 x (List.mem_cons_self _ _) h0
          refine ⟨hlt, hmarks x.channel h0 ?_ hmk⟩
          intro hceq
          exact hpw.1 s hsmem ⟨by omega, by omega⟩
        · exact iinv1 x hxr h0
      · rw [List.pairwise_cons]
        refine ⟨?_, ipw⟩
        intro x hxr
        rcases mem_replaceServoFirst hxr with rfl | hxmem
        · rintro ⟨h0, heq⟩
          rcases (hfresh (by omega)).2.2 with hown | hunm
          · exact hpw.1 s hsmem ⟨h0, by omega⟩
          · obtain ⟨_, hmk⟩ := hinv1 t (List.mem_cons_self _ _) h0
            rw [heq, hunm] at hmk
            exact Bool.false_ne_true hmk
        · exact hpw.1 x hxmem

theorem releaseServoChannel_ne {u : Int → Bool} {ch c : Int} (h : c ≠ ch) :
    releaseServoChannel u ch c = u c := by
  unfold releaseServoChannel
  split_ifs with hg
  · exact Function.update_noteq h _ _
  · rfl

theorem releaseServoChannel_self {u : Int → Bool} {ch : Int} (h0 : 0 ≤ ch)
    (hlt : ch < 16) : releaseServoChannel u ch ch = false := by
  unfold releaseServoChannel
  rw [if_pos ⟨h0, by simp only [MAX_SERVO_CHANNELS]; omega⟩]
  simp

theorem alloc_mono {u : Int → Bool} {c : Int} (h : u c = true) :
    (allocateServoChannel u).1 c = true := by
  unfold allocateServoChannel
  cases hfind : (List.range 16).find? (fun i => !u (Int.ofNat i)) with
  | none => exact h
  | some i =>
    dsimp only
    by_cases hc : c = Int.ofNat i
    · subst hc
      simp [Function.update]
    · rw [Function.update_noteq hc]
      exact h

theorem cleanupServo_marks (u : Int → Bool) (s : ServoS) :
    ∀ c, c ≠ s.channel → u c = true → (cleanupServo u s).1 c = true := by
  intro c hne hc
  simp only [cleanupServo]
  split_ifs with hg
  · dsimp only
    rw [releaseServoChannel_ne hne]
    exact hc
  · exact hc

theorem cleanupServo_channel_neg (u : Int → Bool) (s : ServoS) :
    (cleanupServo u s).2.channel = -1 ∨
    ((cleanupServo u s).2.channel = s.channel ∧ s.channel < 0) := by
  simp only [cleanupServo]
  split_ifs with hg
  · left
    rfl
  · right
    exact ⟨rfl, by simpa using hg⟩

theorem cleanupServo_unmark_cases (u : Int → Bool) (s : ServoS) (c : Int)
    (h : (cleanupServo u s).1 c = false) : c = s.channel ∨ u c = false := by
  by_cases hc : c = s.channel
  · exact Or.inl hc
  · right
    simp only [cleanupServo] at h
    split_ifs at h with hg
    · dsimp only at h
      rw [releaseServoChannel_ne hc] at h
      exact h
    · exact h

theorem cleanupServo_id (u : Int → Bool) (s : ServoS) :
    (cleanupServo u s).2.id = s.id := by
  simp only [cleanupServo]
  split_ifs <;> rfl

theorem initializeServoAttach_marks (u : Int → Bool) (s1 : ServoS) (ok : Bool) :
    ∀ c, 0 ≤ c → c ≠ s1.channel → u c = true →
      (initializeServoAttach u s1 ok).1 c = true := by
  intro c h0 hne hc
  have halloc := allocateServoChannel_spec u
  simp only [initializeServoAttach, attachPhase]
  split_ifs with h1 h2 h3
  · exact alloc_mono hc
  · exact alloc_mono hc
  · have hfree : u (allocateServoChannel u).2 = false :=
      (halloc.1 (by omega)).2.1
    have hcne : c ≠ (allocateServoChannel u).2 := by
      intro heq
      rw [← heq] at hfree
      rw [hfree] at hc
      exact Bool.false_ne_true hc
    dsimp only
    rw [releaseServoChannel_ne hcne]
    exact alloc_mono hc
  · exact hc
  · dsimp only
    rw [releaseServoChannel_ne hne]
    exact hc

theorem initializeServoAttach_fresh (u : Int → Bool) (s1 : ServoS) (ok : Bool)
    (hs : 0 ≤ s1.channel → s1.channel < 16 ∧ u s1.channel = true) :
    0 ≤ (initializeServoAttach u s1 ok).2.channel →
      (initializeServoAttach u s1 ok).2.channel < 16 ∧
      (initializeServoAttach u s1 ok).1
        ((initializeServoAttach u s1 ok).2.channel) = true ∧
      ((initializeServoAttach u s1 ok).2.channel = s1.channel ∨
        u ((initializeServoAttach u s1 ok).2.channel) = false) := by
  have halloc := allocateServoChannel_spec u
  simp only [initializeServoAttach, attachPhase]
  split_ifs with h1 h2 h3
  · intro h0
    dsimp only at h0
    omega
  · intro h0
    dsimp only at h0 ⊢
    obtain ⟨hlt, hfree, hupd⟩ := halloc.1 (by omega)
    refine ⟨hlt, ?_, Or.inr hfree⟩
    rw [hupd]
    simp [Function.update]
  · intro h0
    dsimp only at h0
    omega
  · intro h0
    dsimp only at h0 ⊢
    obtain ⟨hlt, hmk⟩ := hs (by omega)
    exact ⟨hlt, hmk, Or.inl rfl⟩
  · intro h0
    dsimp only at h0
    omega

theorem initializeServoAttach_id (u : Int → Bool) (s1 : ServoS) (ok : Bool) :
    (initializeServoAttach u s1 ok).2.id = s1.id := by
  simp only [initializeServoAttach, attachPhase]
  split_ifs <;> rfl

theorem initializeServo_marks (u : Int → Bool) (s : ServoS) (ok : Bool) :
    ∀ c, 0 ≤ c → c ≠ s.channel → u c = true →
      (initializeServo u s ok).1 c = true := by
  intro c h0 hne hc
  by_cases hatt : s.attached
  · simp only [initializeServo, hatt, if_true]
    refine initializeServoAttach_marks _ _ ok c h0 ?_
      (cleanupServo_marks u s c hne hc)
    show c ≠ (cleanupServo u s).2.channel
    rcases cleanupServo_channel_neg u s with hneg | ⟨heq, _⟩
    · omega
    · omega
  · simp only [initializeServo, hatt, if_false]
    exact initializeServoAttach_marks _ _ ok c h0 hne hc

theorem initializeServo_fresh (u : Int → Bool) (s : ServoS) (ok : Bool)
    (hs : 0 ≤ s.channel → s.channel < 16 ∧ u s.channel = true) :
    0 ≤ (initializeServo u s ok).2.channel →
      (initializeServo u s ok).2.channel < 16 ∧
      (initializeServo u s ok).1 ((initializeServo u s ok).2.channel) = true ∧
      ((initializeServo u s ok).2.channel = s.channel ∨
        u ((initializeServo u s ok).2.channel) = false) := by
  by_cases hatt : s.attached
  · simp only [initializeServo, hatt, if_true]
    intro h0
    have hs1 : 0 ≤ ({(cleanupServo u s).2 with attached := false} : ServoS).channel →
        ({(cleanupServo u s).2 with attached := false} : ServoS).channel < 16 ∧
        (cleanupServo u s).1
          ({(cleanupServo u s).2 with attached := false} : ServoS).channel = true := by
      intro hge
      rcases cleanupServo_channel_neg u s with hneg | ⟨heq, hlt0⟩
      · dsimp only at hge
        omega
      · dsimp only at hge
        omega
    obtain ⟨hlt, hmk, hdisj⟩ :=
      initializeServoAttach_fresh (cleanupServo u s).1
        {(cleanupServo u s).2 with attached := false} ok hs1 h0
    refine ⟨hlt, hmk, ?_⟩
    rcases hdisj with hown | hunm
    · rcases cleanupServo_channel_neg u s with hneg | ⟨heq, hlt0⟩
      · dsimp only at hown
        omega
      · dsimp only at hown
        left
        omega
    · rcases cleanupServo_unmark_cases u s _ hunm with heq | hf
      · exact Or.inl heq
      · exact Or.inr hf
  · simp only [initializeServo, hatt, if_false]
    exact initializeServoAttach_fresh u {s with attached := false} ok hs

theorem initializeServo_id (u : Int → Bool) (s : ServoS) (ok : Bool) :
    (initializeServo u s ok).2.id = s.id := by
  by_cases hatt : s.attached
  · simp only [initializeServo, hatt, if_true]
    rw [initializeServoAttach_id]
    show (cleanupServo u s).2.id = s.id
    exact cleanupServo_id u s
  · simp only [initializeServo, hatt, if_false]
    exact initializeServoAttach_id _ _ _

theorem moveServo_marks (u : Int → Bool) (s : ServoS) (angle : Int) (ok : Bool) :
    ∀ c, 0 ≤ c → c ≠ s.channel → u c = true →
      (moveServo u s angle ok).1 c = true := by
  intro c h0 hne hc
  simp only [moveServo]
  split_ifs <;> (try dsimp only) <;>
    first
      | exact hc
      | exact initializeServo_marks u s ok c h0 hne hc

theorem moveServo_fresh (u : Int → Bool) (s : ServoS) (angle : Int) (ok : Bool)
    (hs : 0 ≤ s.channel → s.channel < 16 ∧ u s.channel = true) :
    0 ≤ (moveServo u s angle ok).2.1.channel →
      (moveServo u s angle ok).2.1.channel < 16 ∧
      (moveServo u s angle ok).1 ((moveServo u s angle ok).2.1.channel) = true ∧
      ((moveServo u s angle ok).2.1.channel = s.channel ∨
        u ((moveServo u s angle ok).2.1.channel) = false) := by
  simp only [moveServo]
  split_ifs <;> (try dsimp only) <;>
    first
      | exact fun h0 => ⟨(hs h0).1, (hs h0).2, Or.inl rfl⟩
      | exact initializeServo_fresh u s ok hs

theorem moveServo_id (u : Int → Bool) (s : ServoS) (angle : Int) (ok : Bool) :
    (moveServo u s angle ok).2.1.id = s.id := by
  simp only [moveServo]
  split_ifs <;> (try dsimp only) <;>
    first
      | rfl
      | exact initializeServo_id u s ok

theorem servoChannelCheck_none_spec {reg : ServoReg} {cfg : ServoCfgMsg}
    {ch : Int} (h : servoChannelCheck reg cfg = none)
    (hch : cfg.channel = some ch) :
    0 ≤ ch ∧ ch < 16 ∧
    (reg.used ch = true →
      ∃ ex, findServoById reg.servos cfg.id = some ex ∧ ex.channel = ch) := by
  simp only [servoChannelCheck, hch] at h
  split_ifs at h with h1 h2 h3
  · refine ⟨by simp only [MAX_SERVO_CHANNELS] at h1; omega,
      by simp only [MAX_SERVO_CHANNELS] at h1; omega, fun _ => ?_⟩
    cases hf : findServoById reg.servos cfg.id with
    | none =>
      rw [hf] at h3
      simp at h3
    | some ex =>
      rw [hf] at h3
      simp only [beq_iff_eq] at h3
      exact ⟨ex, rfl, h3⟩
  · exact ⟨by simp only [MAX_SERVO_CHANNELS] at h1; omega,
      by simp only [MAX_SERVO_CHANNELS] at h1; omega,
      fun hu => absurd hu h2⟩

theorem chanInv_append {used u' : Int → Bool} {l : List ServoS} {s' : ServoS}
    {newid : String}
    (hInv : ChanInv used l)
    (hnotin : ∀ t ∈ l, t.id ≠ newid)
    (hid : s'.id = newid)
    (hmarks : ∀ c, 0 ≤ c → used c = true → u' c = true)
    (hfresh : 0 ≤ s'.channel → s'.channel < 16 ∧ u' s'.channel = true ∧
        used s'.channel = false) :
    ChanInv u' (l ++ [s']) := by
  obtain ⟨hnd, hinv1, hpw⟩ := hInv
  refine ⟨?_, ?_, ?_⟩
  · rw [List.map_append, List.nodup_append]
    refine ⟨hnd, by simp, ?_⟩
    intro a ha
    simp only [List.mem_map] at ha
    obtain ⟨t, ht, rfl⟩ := ha
    simp only [List.map_cons, List.map_nil, List.mem_singleton]
    rw [hid]
    exact fun he => hnotin t ht he
  · intro x hx h0
    rcases List.mem_append.mp hx with hxl | hxr
    · obtain ⟨hlt, hmk⟩ := hinv1 x hxl h0
      exact ⟨hlt, hmarks x.channel h0 hmk⟩
    · rw [List.mem_singleton] at hxr
      subst hxr
      exact ⟨(hfresh h0).1, (hfresh h0).2.1⟩
  · rw [List.pairwise_append]
    refine ⟨hpw, by simp [ChanRel], ?_⟩
    intro t ht x hx
    rw [List.mem_singleton] at hx
    subst hx
    rintro ⟨h0, heq⟩
    obtain ⟨_, hmk⟩ := hinv1 t ht h0
    have hf := (hfresh (by omega)).2.2
    rw [← heq] at hf
    rw [hf] at hmk
    exact Bool.false_ne_true hmk

theorem chanInv_remove {used : Int → Bool} {l : List ServoS} {id : String}
    {s : ServoS}
    (hInv : ChanInv used l) (hfind : findServoById l id = some s) :
    ChanInv (releaseServoChannel used s.channel)
      (l.filter (fun t => ¬(t.id = id))) := by
  obtain ⟨hnd, hinv1, hpw⟩ := hInv
  obtain ⟨hsmem, hsid⟩ := findServoById_eq_some hfind
  refine ⟨?_, ?_, ?_⟩
  · exact ((List.filter_sublist _).map _).nodup hnd
  · intro x hx h0
    obtain ⟨hxl, hxp⟩ := List.mem_filter.mp hx
    have hxid : x.id ≠ id := by simpa using hxp
    have hxs : x ≠ s := fun he => hxid (he ▸ hsid)
    obtain ⟨hlt, hmk⟩ := hinv1 x hxl h0
    refine ⟨hlt, ?_⟩
    have hne : x.channel ≠ s.channel := by
      intro heq
      exact (hpw.forall chanRel_symm hxl hsmem hxs) ⟨h0, heq⟩
    rw [releaseServoChannel_ne hne]
    exact hmk
  · exact hpw.sublist (List.filter_sublist _)

theorem servoConfigure_chanInv (reg : ServoReg) (cfg : ServoCfgMsg) (ok : Bool)
    (hInv : ChanInv reg.used reg.servos) :
    ChanInv (servoConfigure reg cfg ok).1.used
      (servoConfigure reg cfg ok).1.servos := by
  cases hchk : servoChannelCheck reg cfg with
  | some r =>
    simp only [servoConfigure, hchk]
    exact hInv
  | none =>
    simp only [servoConfigure, hchk]
    by_cases hemp : cfg.id = "" ∨ cfg.name = "" ∨ cfg.pin = 0
    · rw [if_pos hemp]
      exact hInv
    · rw [if_neg hemp]
      cases hf : findServoById reg.servos cfg.id with
      | some ex =>
        dsimp only
        cases hcc : cfg.channel with
        | none =>
          simp only [hcc, Option.getD]
          rw [if_neg (by decide)]
          dsimp only
          refine chanInv_replaceServoFirst hInv hf ?_ ?_ ?_
          · rw [initializeServo_id]
            exact cleanupServo_id reg.used ex
          · intro c h0 hcne hcm
            refine initializeServo_marks _ _ ok c h0 ?_
              (cleanupServo_marks reg.used ex c hcne hcm)
            show c ≠ (cleanupServo reg.used ex).2.channel
            rcases cleanupServo_channel_neg reg.used ex with hneg | ⟨heq, hlt⟩ <;>
              omega
          · intro h0
            have hs2 : 0 ≤ (applyServoCfg (cleanupServo reg.used ex).2 cfg).channel →
                (applyServoCfg (cleanupServo reg.used ex).2 cfg).channel < 16 ∧
                (cleanupServo reg.used ex).1
                  (applyServoCfg (cleanupServo reg.used ex).2 cfg).channel = true := by
              intro hg
              exact absurd
                (show (0 : Int) ≤ (cleanupServo reg.used ex).2.channel from hg)
                (by rcases cleanupServo_channel_neg reg.used ex with
                      hneg | ⟨heq, hlt⟩ <;> omega)
            obtain ⟨hlt, hmk, hdisj⟩ := initializeServo_fresh _ _ ok hs2 h0
            refine ⟨hlt, hmk, ?_⟩
            rcases hdisj with hown | hunm
            · exfalso
              have hch2 : ((applyServoCfg (cleanupServo reg.used ex).2 cfg).channel : Int) =
                  (cleanupServo reg.used ex).2.channel := rfl
              rcases cleanupServo_channel_neg reg.used ex with hneg | ⟨heq, hlt0⟩ <;>
                omega
            · rcases cleanupServo_unmark_cases reg.used ex _ hunm with heq | hfv
              · exact Or.inl heq
              · exact Or.inr hfv
        | some ch =>
          obtain ⟨hg0, hg16, himp⟩ := servoChannelCheck_none_spec hchk hcc
          simp only [hcc, Option.getD]
          rw [if_pos hg0]
          dsimp only
          refine chanInv_replaceServoFirst hInv hf ?_ ?_ ?_
          · rw [initializeServo_id]
            exact cleanupServo_id reg.used ex
          · intro c h0 hcne hcm
            have hcch : c ≠ ch := by
              intro hceq
              subst hceq
              obtain ⟨ex', hex', hexch⟩ := himp hcm
              rw [hf] at hex'
              injection hex' with hexeq
              subst hexeq
              exact hcne hexch.symm
            have hP1 : (cleanupServo reg.used ex).1 c = true :=
              cleanupServo_marks reg.used ex c hcne hcm
            have hP2 : Function.update (cleanupServo reg.used ex).1 ch true c = true := by
              rw [Function.update_noteq hcch]
              exact hP1
            exact initializeServo_marks _ _ ok c h0 hcch hP2
          · intro h0
            have hs2 : (0 : Int) ≤ ch → (ch : Int) < 16 ∧
                Function.update (cleanupServo reg.used ex).1 ch true ch = true :=
              fun _ => ⟨hg16, by simp [Function.update]⟩
            obtain ⟨hlt, hmk, hdisj⟩ := initializeServo_fresh _ _ ok hs2 h0
            refine ⟨hlt, hmk, ?_⟩
            rcases hdisj with hown | hunm
            · by_cases hu : reg.used ch = true
              · obtain ⟨ex', hex', hexch⟩ := himp hu
                rw [hf] at hex'
                injection hex' with hexeq
                subst hexeq
                left
                rw [hown]
                exact hexch.symm ▸ rfl
              · right
                rw [hown]
                exact Bool.not_eq_true _ ▸ (by simpa using hu)
            · by_cases hch2 : (initializeServo
                  (Function.update (cleanupServo reg.used ex).1 ch true)
                  {applyServoCfg (cleanupServo reg.used ex).2 cfg with channel := ch}
                  ok).2.channel = ch
              · rw [hch2] at hunm
                rw [Function.update_same] at hunm
                exact absurd hunm (by simp)
              · rw [Function.update_noteq hch2] at hunm
                rcases cleanupServo_unmark_cases reg.used ex _ hunm with heq | hfv
                · exact Or.inl heq
                · exact Or.inr hfv
      | none =>
        dsimp only
        have hnotin := findServoById_eq_none hf
        cases hcc : cfg.channel with
        | none =>
          simp only [hcc, Option.getD]
          rw [if_neg (by decide)]
          dsimp only
          refine chanInv_append hInv hnotin ?_ ?_ ?_
          · rw [initializeServo_id]
            rfl
          · intro c h0 hcm
            exact initializeServo_marks _ _ ok c h0 (by
              show c ≠ (-1 : Int)
              omega) hcm
          · intro h0
            have hs0 : (0 : Int) ≤ (-1 : Int) →
                ((-1 : Int) < 16 ∧ reg.used (-1) = true) := by omega
            obtain ⟨hlt, hmk, hdisj⟩ := initializeServo_fresh _ _ ok hs0 h0
            refine ⟨hlt, hmk, ?_⟩
            rcases hdisj with hown | hunm
            · exfalso
              have hc0 : ((applyServoCfg
                  {id := cfg.id, name := cfg.name, pin := cfg.pin} cfg).channel :
                    Int) = -1 := rfl
              omega
            · exact hunm
        | some ch =>
          obtain ⟨hg0, hg16, himp⟩ := servoChannelCheck_none_spec hchk hcc
          have hfree : reg.used ch = false := by
            by_cases hu : reg.used ch = true
            · obtain ⟨ex', hex', _⟩ := himp hu
              rw [hf] at hex'
              exact absurd hex' (by simp)
            · simpa using hu
          simp only [hcc, Option.getD]
          rw [if_pos hg0]
          dsimp only
          refine chanInv_append hInv hnotin ?_ ?_ ?_
          · rw [initializeServo_id]
            rfl
          · intro c h0 hcm
            have hcch : c ≠ ch := by
              intro hceq
              subst hceq
              rw [hfree] at hcm
              exact Bool.false_ne_true hcm
            refine initializeServo_marks _ _ ok c h0 hcch ?_
            rw [Function.update_noteq hcch]
            exact hcm
          · intro h0
            have hs1 : (0 : Int) ≤ ch → (ch : Int) < 16 ∧
                Function.update reg.used ch true ch = true :=
              fun _ => ⟨hg16, by simp [Function.update]⟩
            obtain ⟨hlt, hmk, hdisj⟩ := initializeServo_fresh _ _ ok hs1 h0
            refine ⟨hlt, hmk, ?_⟩
            rcases hdisj with hown | hunm
            · rw [hown]
              exact hfree
            · by_cases hch2 : (initializeServo (Function.update reg.used ch true)
                  {applyServoCfg {id := cfg.id, name := cfg.name, pin := cfg.pin} cfg
                    with channel := ch} ok).2.channel = ch
              · rw [hch2]
                exact hfree
              · rw [Function.update_noteq hch2] at hunm
                exact hunm

/-- Claim C8: PWM channel allocation is injective.  Every servo message
preserves the channel invariant (unique ids, assigned channels in
range, marked used, and pairwise distinct); a `configure` that requests
a channel held by a different servo is rejected with the
channel-in-use error and leaves the whole registry untouched; and
`detach`/`remove` of a servo holding a channel clear that channel's
in-use mark, making it available for reallocation. -/
theorem claim_C8_channel_injectivity (reg : ServoReg) (m : ServoMsg) (ok : Bool)
    (hInv : ChanInv reg.used reg.servos) :
    ChanInv (stepServo reg m ok).1.used (stepServo reg m ok).1.servos ∧
    (∀ cfg ch t, m = ServoMsg.configure cfg → cfg.channel = some ch →
      t ∈ reg.servos → t.id ≠ cfg.id → t.channel = ch → 0 ≤ ch →
      stepServo reg m ok =
        (reg, Response.err "Servo channel already in use by another servo")) ∧
    (∀ id s, m = ServoMsg.controlDetach id →
      findServoById reg.servos id = some s → 0 ≤ s.channel →
      (stepServo reg m ok).1.used s.channel = false) ∧
    (∀ id s, m = ServoMsg.remove id →
      findServoById reg.servos id = some s → 0 ≤ s.channel →
      (stepServo reg m ok).1.used s.channel = false) := by
  refine ⟨?_, ?_, ?_, ?_⟩
  · cases m with
    | configure cfg =>
      exact servoConfigure_chanInv reg cfg ok hInv
    | controlMove id angle sp cid =>
      simp only [stepServo]
      cases hf : findServoById reg.servos id with
      | none => exact hInv
      | some s =>
        dsimp only
        by_cases hneg : angle < 0
        · rw [if_pos hneg]
          exact hInv
        · rw [if_neg hneg]
          (try dsimp only)
          have hs : 0 ≤ s.channel → s.channel < 16 ∧ reg.used s.channel = true :=
            fun h0 => hInv.2.1 s (findServoById_eq_some hf).1 h0
          cases sp <;> cases cid <;>
            exact chanInv_replaceServoFirst hInv hf
              (moveServo_id _ _ angle ok)
              (fun c h0 hcne hcm => moveServo_marks _ _ angle ok c h0 hcne hcm)
              (moveServo_fresh _ _ angle ok hs)
    | controlDetach id =>
      simp only [stepServo]
      cases hf : findServoById reg.servos id with
      | none => exact hInv
      | some s =>
        dsimp only
        refine chanInv_replaceServoFirst hInv hf (cleanupServo_id reg.used s)
          (fun c h0 hcne hcm => cleanupServo_marks reg.used s c hcne hcm) ?_
        intro h0
        exact absurd h0 (by
          rcases cleanupServo_channel_neg reg.used s with hneg | ⟨heq, hlt⟩ <;>
            omega)
    | controlSetParams id minA maxA minPW maxPW =>
      simp only [stepServo]
      cases hf : findServoById reg.servos id with
      | none => exact hInv
      | some s =>
        dsimp only
        have hs : 0 ≤ s.channel → s.channel < 16 ∧ reg.used s.channel = true :=
          fun h0 => hInv.2.1 s (findServoById_eq_some hf).1 h0
        cases minA <;> cases maxA <;> cases minPW <;> cases maxPW <;>
          exact chanInv_replaceServoFirst hInv hf rfl
            (fun c h0 hcne hcm => hcm)
            (fun h0 => ⟨(hs h0).1, (hs h0).2, Or.inl rfl⟩)
    | remove id =>
      simp only [stepServo]
      cases hf : findServoById reg.servos id with
      | none => exact hInv
      | some s =>
        dsimp only
        exact chanInv_remove hInv hf
  · intro cfg ch t hm hch ht htne htch h0
    subst hm
    obtain ⟨hnd, hinv1, hpw⟩ := hInv
    obtain ⟨hlt, hmk⟩ := hinv1 t ht (by omega)
    have hchk : servoChannelCheck reg cfg =
        some (.err "Servo channel already in use by another servo") := by
      unfold servoChannelCheck
      rw [hch]
      dsimp only
      rw [if_neg (by simp only [MAX_SERVO_CHANNELS]; omega)]
      rw [if_pos (by rw [← htch]; exact hmk)]
      cases hf : findServoById reg.servos cfg.id with
      | none => simp
      | some ex =>
        have hexne : ex ≠ t := by
          intro he
          subst he
          exact htne (findServoById_eq_some hf).2
        have hexch : ex.channel ≠ ch := by
          intro hexeq
          exact (hpw.forall chanRel_symm (findServoById_eq_some hf).1 ht hexne)
            ⟨by omega, by omega⟩
        simp [hexch]
    simp only [stepServo, servoConfigure, hchk]
  · intro id s hm hfind h0
    subst hm
    obtain ⟨hlt, hmk⟩ := hInv.2.1 s (findServoById_eq_some hfind).1 h0
    simp only [stepServo, hfind]
    (try dsimp only)
    show (cleanupServo reg.used s).1 s.channel = false
    simp only [cleanupServo]
    rw [if_pos (show (0 : Int) ≤ ({s with attached := false} : ServoS).channel from h0)]
    dsimp only
    exact releaseServoChannel_self h0 hlt
  · intro id s hm hfind h0
    subst hm
    obtain ⟨hlt, hmk⟩ := hInv.2.1 s (findServoById_eq_some hfind).1 h0
    simp only [stepServo, hfind]
    (try dsimp only)
    exact releaseServoChannel_self h0 hlt

/-- Servo holding channel 3, for the C8 witness. -/
def c8S1 : ServoS := {id := "s1", name := "a", pin := 5, channel := 3,
                      attached := true}

/-- Registry with `c8S1` attached on channel 3 and a second, unassigned
servo `s2`. -/
def c8Reg : ServoReg :=
  {servos := [c8S1, {id := "s2", name := "b", pin := 6}],
   used := fun c => c == 3}

/-- Configure request asking for `s1`'s channel on behalf of `s2`. -/
def c8Cfg : ServoCfgMsg := {id := "s2", name := "b", pin := 6,
                            channel := some 3}

theorem claim_C8_channel_injectivity_witness :
    ChanInv c8Reg.used c8Reg.servos ∧
    ChanInv (stepServo c8Reg (.configure c8Cfg) true).1.used
      (stepServo c8Reg (.configure c8Cfg) true).1.servos ∧
    stepServo c8Reg (.configure c8Cfg) true =
      (c8Reg, Response.err "Servo channel already in use by another servo") :=
  ⟨by decide,
   (claim_C8_channel_injectivity c8Reg (.configure c8Cfg) true (by decide)).1,
   (claim_C8_channel_injectivity c8Reg (.configure c8Cfg) true (by decide)).2.1
     c8Cfg 3 c8S1 rfl rfl (by decide) (by decide) (by decide) (by decide)⟩

end Nextron
